import Mathlib

/-!
Shallow embedding of the BandaCV Arduino firmware (src/arduino_code) and
proofs about its serial command protocol, heartbeat watchdog, actuator
dispatch, RPM estimation and telemetry emission.

Machine integers are modelled as `Int`/`Nat` (the values exercised stay far
below every overflow boundary); `millis()` timestamps are `Nat` (the
monotonic millisecond clock); `float` arithmetic is modelled over `Rat`
(all values in the claims are exactly representable).  Arduino `String`
values are `List Char`.
-/

namespace BandaCV

/-! ### Configuration constants (config.h) -/

def SERIAL_SEND_INTERVAL_MS : Nat := 100

def HEARTBEAT_TIMEOUT_MS : Nat := 2000

def ENCODER_BASE_CPR : Nat := 16

def MOTOR_GEARING : Nat := 30

def ENCODER_PULSES_PER_REVOLUTION : Nat := ENCODER_BASE_CPR * MOTOR_GEARING

def SERVO_POS_TRIANGLE : Int := 30

def SERVO_POS_SQUARE : Int := 90

def SERVO_POS_CIRCLE : Int := 150

def SERVO_POS_UNKNOWN : Int := 0

/-! ### Motor (Motor.cpp)

`Motor::setSpeed` runs `constrain(speed, 0, 255)` and writes the result to
the PWM pin via `analogWrite`.  We model the applied output as the returned
value. -/

/-- Arduino `constrain(amt, low, high)`: `amt < low ? low : (amt > high ? high : amt)`. -/
def constrain (amt low high : Int) : Int :=
  if amt < low then low else if amt > high then high else amt

/-- `Motor::setSpeed`: the PWM duty value actually applied for an input `speed`. -/
def Motor.setSpeed (speed : Int) : Int :=
  constrain speed 0 255

/-! ### ClassifierServo (ClassifierServo.cpp)

`setPosition` is a `switch` on the code with a default arm; the modelled
value is the angle written to the servo. -/

/-- `ClassifierServo::setPosition`: angle written for a given servo code. -/
def ClassifierServo.setPosition (servoCode : Int) : Int :=
  if servoCode = 0 then SERVO_POS_TRIANGLE
  else if servoCode = 1 then SERVO_POS_SQUARE
  else if servoCode = 2 then SERVO_POS_CIRCLE
  else SERVO_POS_UNKNOWN

/-! ### Arduino String helpers used by Communication.cpp -/

/-- C `isspace`, as used by `String::trim` and `atol`. -/
def isSpaceChar (c : Char) : Bool :=
  c = ' ' || c = '\t' || c = '\n' || c = Char.ofNat 11 || c = Char.ofNat 12 || c = '\r'

/-- `String::trim`: strip leading and trailing whitespace. -/
def trim (s : List Char) : List Char :=
  ((s.dropWhile isSpaceChar).reverse.dropWhile isSpaceChar).reverse

/-- Value of the leading run of decimal digits (0 when there is none). -/
def digitsValue (s : List Char) : Int :=
  (s.takeWhile Char.isDigit).foldl (fun acc c => acc * 10 + ((c.toNat : Int) - 48)) 0

/-- `String::toInt` (`atol` semantics): skip whitespace, optional sign,
then the leading digits; yields 0 when no digits are present. -/
def toIntLoose (s : List Char) : Int :=
  match s.dropWhile isSpaceChar with
  | '-' :: rest => - digitsValue rest
  | '+' :: rest => digitsValue rest
  | rest => digitsValue rest

/-! ### Communication state (Communication.h) -/

/-- Mutable fields of the `Communication` object that the claims touch. -/
structure CommState where
  inputString : List Char
  lastSerialSendTime : Nat
  lastHeartbeatTime : Nat
deriving DecidableEq, Repr

/-- Last values written to the two actuators (`analogWrite` duty and servo angle). -/
structure ActState where
  motorPwm : Int
  servoAngle : Int
deriving DecidableEq, Repr

/-- `Communication::processCommand`: trim, find the first `_`; bail out when
there is none, otherwise refresh the heartbeat timestamp, split at the first
separator, parse both fields loosely and dispatch to motor and servo. -/
def processCommand (command : List Char) (now : Nat)
    (comm : CommState) (act : ActState) : CommState × ActState :=
  let cmd := trim command
  match cmd.findIdx? (fun c => c = '_') with
  | none => (comm, act)
  | some separatorIndex =>
    let comm := { comm with lastHeartbeatTime := now }
    let pwmValue := toIntLoose (cmd.take separatorIndex)
    let servoCode := toIntLoose (cmd.drop (separatorIndex + 1))
    (comm, { motorPwm := Motor.setSpeed pwmValue,
             servoAngle := ClassifierServo.setPosition servoCode })

/-- `Communication::handleSerial`: drain the available bytes, accumulating
into `inputString`; each newline dispatches the accumulated line through
`processCommand` and clears the buffer. -/
def handleSerial (bytes : List Char) (now : Nat)
    (comm : CommState) (act : ActState) : CommState × ActState :=
  match bytes with
  | [] => (comm, act)
  | inChar :: rest =>
    if inChar = '\n' then
      let out := processCommand comm.inputString now comm act
      handleSerial rest now { out.1 with inputString := [] } out.2
    else
      handleSerial rest now { comm with inputString := comm.inputString ++ [inChar] } act

/-- One outbound telemetry record: the integer-cast RPM and the obstacle flag. -/
structure TelemetryRecord where
  rpmInt : Int
  obstacle : Int
deriving DecidableEq, Repr

/-- C cast `(int)` from `float`: truncation toward zero, on our `Rat` model. -/
def floatToInt (q : Rat) : Int :=
  q.num.tdiv (q.den : Int)

/-- The characters `sendDataToPC` puts on the wire for one record:
`Serial.print((int)rpm); Serial.print("_"); Serial.println(obstacleState)`.
Arduino's `Print::println` terminates the line with a carriage return
followed by a newline, so the record ends in `\r\n`, not a bare `\n`. -/
def telemetryLine (r : TelemetryRecord) : List Char :=
  (toString r.rpmInt).toList ++ ['_'] ++ (toString r.obstacle).toList ++ ['\r', '\n']

/-- `Communication::sendDataToPC`: emit one record when at least
`SERIAL_SEND_INTERVAL_MS` have elapsed since the last emission, refreshing
`lastSerialSendTime`; otherwise do nothing. -/
def sendDataToPC (rpm : Rat) (obstacleState : Int) (currentTime : Nat)
    (comm : CommState) : CommState × Option TelemetryRecord :=
  if SERIAL_SEND_INTERVAL_MS ≤ currentTime - comm.lastSerialSendTime then
    ({ comm with lastSerialSendTime := currentTime },
     some { rpmInt := floatToInt rpm, obstacle := obstacleState })
  else
    (comm, none)

/-- `Communication::_checkHeartbeat`: when more than `HEARTBEAT_TIMEOUT_MS`
have elapsed since the last valid command, force speed 0 and servo code 9. -/
def checkHeartbeat (now : Nat) (comm : CommState) (act : ActState) : ActState :=
  if HEARTBEAT_TIMEOUT_MS < now - comm.lastHeartbeatTime then
    { motorPwm := Motor.setSpeed 0,
      servoAngle := ClassifierServo.setPosition 9 }
  else act

/-- `Communication::update`: `handleSerial()`, then `sendDataToPC(rpm,
obstacleState)`, then `_checkHeartbeat()`, in that order. -/
def Communication.update (bytes : List Char) (rpm : Rat) (obstacleState : Int)
    (now : Nat) (comm : CommState) (act : ActState) :
    CommState × ActState × Option TelemetryRecord :=
  let afterSerial := handleSerial bytes now comm act
  let afterSend := sendDataToPC rpm obstacleState now afterSerial.1
  (afterSend.1, checkHeartbeat now afterSend.1 afterSerial.2, afterSend.2)

/-! ### RpmSensor (RpmSensor.cpp) -/

/-- Mutable fields of `RpmSensor` read by the sampling step. -/
structure RpmState where
  pulseCount : Nat
  lastRpmTime : Nat
  currentRpm : Rat
deriving DecidableEq, Repr

/-- `RpmSensor::update`: once every 1000 ms, compute
`(pulseCount / (float)pulsesPerRevolution) * 60.0`, zero the counter and
remember the sample time. -/
def RpmSensor.update (pulsesPerRevolution : Nat) (currentTime : Nat)
    (s : RpmState) : RpmState :=
  if 1000 ≤ currentTime - s.lastRpmTime then
    { pulseCount := 0,
      lastRpmTime := currentTime,
      currentRpm := (s.pulseCount : Rat) / (pulsesPerRevolution : Rat) * 60 }
  else s

/-! ### ObstacleSensor (ObstacleSensor.cpp) -/

/-- `ObstacleSensor::getState`: 1 when the pin reads LOW (obstacle present),
0 otherwise. -/
def ObstacleSensor.getState (pinIsLow : Bool) : Int :=
  if pinIsLow then 1 else 0

/-! ### Interrupt interleaving model for the pulse counter

`RpmSensor::countPulse` is an ISR that increments `_pulseCount`; the
sampling step brackets its read-and-reset with `detachInterrupt` /
`attachInterrupt`.  We model the shared state together with the
attached flag and let pulse edges arrive between any two statements of
the critical section. -/

/-- Shared sensor state as seen across the interrupt boundary. -/
structure SensorState where
  pulseCount : Nat
  attached : Bool
  currentRpm : Rat
deriving DecidableEq, Repr

/-- A rising edge on the encoder pin: the ISR (`countPulse`) runs and
increments the counter only while the interrupt is attached; a pulse
arriving while detached is missed. -/
def pulseEvent (s : SensorState) : SensorState :=
  if s.attached then { s with pulseCount := s.pulseCount + 1 } else s

/-- `k` pulse edges in a row. -/
def pulseEvents : Nat → SensorState → SensorState
  | 0, s => s
  | k + 1, s => pulseEvents k (pulseEvent s)

/-- `detachInterrupt(...)`: pulse delivery masked. -/
def detachInterrupt (s : SensorState) : SensorState :=
  { s with attached := false }

/-- `attachInterrupt(..., countPulse, RISING)`: pulse delivery enabled. -/
def attachInterrupt (s : SensorState) : SensorState :=
  { s with attached := true }

/-- The critical section of `RpmSensor::update` with `k₁`, `k₂`, `k₃`
pulse edges arriving respectively after the detach, after the RPM
computation, and after the counter reset: detach; read the counter and
store the RPM; zero the counter; re-attach. -/
def sampleCritical (pulsesPerRevolution : Nat) (k₁ k₂ k₃ : Nat)
    (s : SensorState) : SensorState :=
  let s₁ := pulseEvents k₁ (detachInterrupt s)
  let s₂ := pulseEvents k₂
    { s₁ with currentRpm := (s₁.pulseCount : Rat) / (pulsesPerRevolution : Rat) * 60 }
  let s₃ := pulseEvents k₃ { s₂ with pulseCount := 0 }
  attachInterrupt s₃

/-! ### Repeated telemetry calls (for the rate-limit property) -/

/-- A sequence of `sendDataToPC` calls, each a `(currentTime, rpm,
obstacleState)` triple, threaded through the communication state; yields
the emitted records tagged with their emission times. -/
def telemetryRun : List (Nat × Rat × Int) → CommState → List (Nat × TelemetryRecord)
  | [], _ => []
  | call :: rest, comm =>
    let out := sendDataToPC call.2.1 call.2.2 call.1 comm
    match out.2 with
    | none => telemetryRun rest out.1
    | some r => (call.1, r) :: telemetryRun rest out.1

/-! ### Control cycle -/

/-- Whole-system state for one control cycle. -/
structure SysState where
  sensor : RpmState
  comm : CommState
  act : ActState
deriving DecidableEq, Repr

/-- Modelled from the spec: the orchestrating sketch (the ControlLoop
component) is not among the source files; per the spec, each cycle samples
the rate estimator, reads the presence sensor, and then drives the serial
communication update with those freshly computed values, so inbound
commands are dispatched and the watchdog checked by `Communication.update`
with the current cycle's RPM and obstacle state. -/
def ControlLoop.cycle (pulsesPerRevolution : Nat) (bytes : List Char)
    (pinIsLow : Bool) (now : Nat) (st : SysState) :
    SysState × Option TelemetryRecord :=
  let sensor := RpmSensor.update pulsesPerRevolution now st.sensor
  let obstacleState := ObstacleSensor.getState pinIsLow
  let out := Communication.update bytes sensor.currentRpm obstacleState now st.comm st.act
  ({ sensor := sensor, comm := out.1, act := out.2.1 }, out.2.2)

/-- Two successive telemetry emission times are at least one send interval
(100 ms) apart. -/
def gapR (a b : Nat) : Prop := a + 100 ≤ b

instance : IsTrans Nat gapR := ⟨fun a b c hab hbc => by unfold gapR at *; omega⟩

/-! ## Helper lemmas -/

theorem telemetryRun_cons_emit (call : Nat × Rat × Int) (rest : List (Nat × Rat × Int))
    (comm : CommState) (h : SERIAL_SEND_INTERVAL_MS ≤ call.1 - comm.lastSerialSendTime) :
    telemetryRun (call :: rest) comm =
      (call.1, { rpmInt := floatToInt call.2.1, obstacle := call.2.2 }) ::
        telemetryRun rest { comm with lastSerialSendTime := call.1 } := by
  simp only [telemetryRun, sendDataToPC, h, if_true]

theorem telemetryRun_cons_skip (call : Nat × Rat × Int) (rest : List (Nat × Rat × Int))
    (comm : CommState) (h : ¬ SERIAL_SEND_INTERVAL_MS ≤ call.1 - comm.lastSerialSendTime) :
    telemetryRun (call :: rest) comm = telemetryRun rest comm := by
  simp only [telemetryRun, sendDataToPC, h, if_false]

/-- Starting from the stored `lastSerialSendTime`, successive emission times
form a chain with gaps of at least 100 ms. -/
theorem telemetryRun_chain (calls : List (Nat × Rat × Int)) (comm : CommState) :
    List.Chain gapR comm.lastSerialSendTime ((telemetryRun calls comm).map Prod.fst) := by
  induction calls generalizing comm with
  | nil => exact List.Chain.nil
  | cons call rest ih =>
    by_cases h : SERIAL_SEND_INTERVAL_MS ≤ call.1 - comm.lastSerialSendTime
    · rw [telemetryRun_cons_emit call rest comm h]
      refine List.Chain.cons ?_ ?_
      · show comm.lastSerialSendTime + 100 ≤ call.1
        have : SERIAL_SEND_INTERVAL_MS = 100 := rfl
        omega
      · exact ih { comm with lastSerialSendTime := call.1 }
    · rw [telemetryRun_cons_skip call rest comm h]
      exact ih comm

/-- Along a 100 ms-gap chain, the `i`-th element is at least
`100 * (i + 1)` beyond the start. -/
theorem chain_cumulative (l : List Nat) (x : Nat) (h : List.Chain gapR x l) :
    ∀ i : Fin l.length, x + 100 * (i.1 + 1) ≤ l.get i := by
  induction l generalizing x with
  | nil => intro i; exact absurd i.2 (Nat.not_lt_zero _)
  | cons y rest ih =>
    intro i
    rw [List.chain_cons] at h
    have hxy : x + 100 ≤ y := h.1
    match i with
    | ⟨0, h0⟩ =>
      show x + 100 * 1 ≤ y
      omega
    | ⟨j + 1, hj⟩ =>
      have hj' : j < rest.length := by simpa using hj
      have hrec := ih y h.2 ⟨j, hj'⟩
      show x + 100 * (j + 1 + 1) ≤ rest.get ⟨j, hj'⟩
      simp only at hrec
      omega

/-- A list of times with pairwise-consecutive gaps of at least 100 ms that
all lie inside one half-open 1000 ms window has at most 10 elements. -/
theorem window_count (l : List Nat) (hc : List.Chain' gapR l) (lo : Nat)
    (hin : ∀ t ∈ l, lo ≤ t ∧ t < lo + 1000) : l.length ≤ 10 := by
  match l with
  | [] => simp
  | x :: rest =>
    have hch : List.Chain gapR x rest := hc
    by_contra hlen
    have h9 : 9 < rest.length := by
      simp only [List.length_cons] at hlen
      omega
    have hcum := chain_cumulative rest x hch ⟨9, h9⟩
    have hmem : rest.get ⟨9, h9⟩ ∈ x :: rest :=
      List.mem_cons_of_mem x (List.get_mem rest 9 h9)
    have h1 := hin _ hmem
    have h2 := hin x (List.mem_cons_self x rest)
    simp only at hcum
    omega

/-- Every emitted record comes from one of the calls, carrying that call's
time, truncated RPM and obstacle value. -/
theorem telemetryRun_content (calls : List (Nat × Rat × Int)) (comm : CommState) :
    ∀ e ∈ telemetryRun calls comm, ∃ c ∈ calls,
      e.1 = c.1 ∧ e.2 = { rpmInt := floatToInt c.2.1, obstacle := c.2.2 } := by
  induction calls generalizing comm with
  | nil => intro e he; simp [telemetryRun] at he
  | cons call rest ih =>
    intro e he
    by_cases h : SERIAL_SEND_INTERVAL_MS ≤ call.1 - comm.lastSerialSendTime
    · rw [telemetryRun_cons_emit call rest comm h] at he
      rcases List.mem_cons.mp he with he | he
      · exact ⟨call, List.mem_cons_self _ _, by rw [he], by rw [he]⟩
      · obtain ⟨c, hc, h1, h2⟩ := ih { comm with lastSerialSendTime := call.1 } e he
        exact ⟨c, List.mem_cons_of_mem _ hc, h1, h2⟩
    · rw [telemetryRun_cons_skip call rest comm h] at he
      obtain ⟨c, hc, h1, h2⟩ := ih comm e he
      exact ⟨c, List.mem_cons_of_mem _ hc, h1, h2⟩

theorem processCommand_rejected (cmd : List Char) (now : Nat) (comm : CommState)
    (act : ActState) (h : (trim cmd).findIdx? (fun c => c = '_') = none) :
    processCommand cmd now comm act = (comm, act) := by
  simp only [processCommand, h]

theorem processCommand_dispatched (cmd : List Char) (now : Nat) (comm : CommState)
    (act : ActState) (i : Nat)
    (h : (trim cmd).findIdx? (fun c => c = '_') = some i) :
    processCommand cmd now comm act =
      ({ comm with lastHeartbeatTime := now },
       { motorPwm := Motor.setSpeed (toIntLoose ((trim cmd).take i)),
         servoAngle := ClassifierServo.setPosition (toIntLoose ((trim cmd).drop (i + 1))) }) := by
  simp only [processCommand, h]

/-- A character in the trimmed line yields some first separator index. -/
theorem findIdx?_of_mem (l : List Char) (h : '_' ∈ l) :
    ∃ i, l.findIdx? (fun c => c = '_') = some i := by
  cases hf : l.findIdx? (fun c => c = '_') with
  | some i => exact ⟨i, rfl⟩
  | none =>
    rw [List.findIdx?_eq_none_iff] at hf
    have := hf '_' h
    simp at this

/-- Once its `inputString` is cleared, the outcome of `processCommand` does
not depend on the buffer stored in the communication state. -/
theorem processCommand_erased (cmd : List Char) (now : Nat) (comm : CommState)
    (act : ActState) (ins : List Char) :
    ({ (processCommand cmd now { comm with inputString := ins } act).1 with
        inputString := ([] : List Char) },
      (processCommand cmd now { comm with inputString := ins } act).2) =
    ({ (processCommand cmd now comm act).1 with inputString := ([] : List Char) },
      (processCommand cmd now comm act).2) := by
  cases hf : (trim cmd).findIdx? (fun c => c = '_') with
  | none =>
    rw [processCommand_rejected _ _ _ _ hf, processCommand_rejected _ _ _ _ hf]
  | some i =>
    rw [processCommand_dispatched _ _ _ _ _ hf, processCommand_dispatched _ _ _ _ _ hf]

/-- Draining a buffer that ends in the single newline processes exactly the
accumulated line and clears the input buffer. -/
theorem handleSerial_single_line (buf : List Char) :
    ∀ (now : Nat) (comm : CommState) (act : ActState), '\n' ∉ buf →
      handleSerial (buf ++ ['\n']) now comm act =
        ({ (processCommand (comm.inputString ++ buf) now comm act).1 with
            inputString := ([] : List Char) },
         (processCommand (comm.inputString ++ buf) now comm act).2) := by
  induction buf with
  | nil =>
    intro now comm act _
    show handleSerial ['\n'] now comm act = _
    simp [handleSerial]
  | cons c rest ih =>
    intro now comm act hnl
    have hc : ¬ (c = '\n') := by
      intro h
      rw [h] at hnl
      exact hnl (List.mem_cons_self _ _)
    have hrest : '\n' ∉ rest := fun h => hnl (List.mem_cons_of_mem c h)
    show handleSerial (c :: (rest ++ ['\n'])) now comm act = _
    rw [handleSerial, if_neg hc]
    rw [ih now { comm with inputString := comm.inputString ++ [c] } act hrest]
    have hassoc : (comm.inputString ++ [c]) ++ rest = comm.inputString ++ (c :: rest) := by
      simp
    simp only []
    rw [hassoc]
    exact processCommand_erased (comm.inputString ++ (c :: rest)) now comm act
      (comm.inputString ++ [c])

/-! ## Claims -/

/-- Claim C1: whenever the current time minus the last-valid-command
timestamp exceeds 2000 ms, the heartbeat check sets the motor speed to 0 and
the servo to the UNKNOWN/home position, and repeating the check at any later
time while still disconnected reapplies the same safe state with no other
effect (idempotent). -/
theorem heartbeat_timeout_safe_state (now later : Nat) (comm : CommState)
    (act : ActState)
    (h : HEARTBEAT_TIMEOUT_MS < now - comm.lastHeartbeatTime)
    (h' : HEARTBEAT_TIMEOUT_MS < later - comm.lastHeartbeatTime) :
    checkHeartbeat now comm act = { motorPwm := 0, servoAngle := SERVO_POS_UNKNOWN }
    ∧ checkHeartbeat later comm (checkHeartbeat now comm act) =
        checkHeartbeat now comm act := by
  have hs : Motor.setSpeed 0 = 0 := rfl
  have hu : ClassifierServo.setPosition 9 = SERVO_POS_UNKNOWN := rfl
  constructor
  · simp [checkHeartbeat, h, hs, hu]
  · simp [checkHeartbeat, h, h']

/-- Witness for C1 at a concrete disconnected state. -/
theorem heartbeat_timeout_safe_state_witness :
    checkHeartbeat 2001 ⟨[], 0, 0⟩ ⟨123, 90⟩ =
      { motorPwm := 0, servoAngle := SERVO_POS_UNKNOWN }
    ∧ checkHeartbeat 3500 ⟨[], 0, 0⟩ (checkHeartbeat 2001 ⟨[], 0, 0⟩ ⟨123, 90⟩) =
        checkHeartbeat 2001 ⟨[], 0, 0⟩ ⟨123, 90⟩ :=
  heartbeat_timeout_safe_state 2001 3500 ⟨[], 0, 0⟩ ⟨123, 90⟩ (by decide) (by decide)

/-- Claim C4: the value applied to the motor output is the input clamped to
`[0, 255]`: negative inputs apply 0, inputs above 255 apply 255, in-range
inputs apply unchanged; no input is rejected. -/
theorem setSpeed_clamps (v : Int) :
    Motor.setSpeed v = max 0 (min 255 v)
    ∧ (v < 0 → Motor.setSpeed v = 0)
    ∧ (255 < v → Motor.setSpeed v = 255)
    ∧ (0 ≤ v → v ≤ 255 → Motor.setSpeed v = v) := by
  unfold Motor.setSpeed constrain
  refine ⟨?_, ?_, ?_, ?_⟩ <;> intros <;> split_ifs <;> omega

/-- Witness for C4 at inputs below, above and inside the range. -/
theorem setSpeed_clamps_witness :
    Motor.setSpeed (-5) = 0 ∧ Motor.setSpeed 300 = 255 ∧ Motor.setSpeed 200 = 200 :=
  ⟨(setSpeed_clamps (-5)).2.1 (by decide),
   (setSpeed_clamps 300).2.2.1 (by decide),
   (setSpeed_clamps 200).2.2.2 (by decide) (by decide)⟩

/-- Claim C5: `setPosition` is total over the integers: 0 maps to TRIANGLE,
1 to SQUARE, 2 to CIRCLE, and every other integer — including the watchdog's
sentinel code 9 — maps to the UNKNOWN/home position. -/
theorem setPosition_total_map (c : Int) :
    ClassifierServo.setPosition 0 = SERVO_POS_TRIANGLE
    ∧ ClassifierServo.setPosition 1 = SERVO_POS_SQUARE
    ∧ ClassifierServo.setPosition 2 = SERVO_POS_CIRCLE
    ∧ ClassifierServo.setPosition 9 = SERVO_POS_UNKNOWN
    ∧ (c ≠ 0 → c ≠ 1 → c ≠ 2 → ClassifierServo.setPosition c = SERVO_POS_UNKNOWN) := by
  refine ⟨rfl, rfl, rfl, rfl, fun h0 h1 h2 => ?_⟩
  simp [ClassifierServo.setPosition, h0, h1, h2]

/-- Witness for C5 at the sentinel and a negative out-of-range code. -/
theorem setPosition_total_map_witness :
    ClassifierServo.setPosition 9 = SERVO_POS_UNKNOWN
    ∧ ClassifierServo.setPosition (-7) = SERVO_POS_UNKNOWN :=
  ⟨(setPosition_total_map 9).2.2.2.1,
   (setPosition_total_map (-7)).2.2.2.2 (by decide) (by decide) (by decide)⟩

/-- Claim C6: when the 1-second window has elapsed with `n` pulses counted
and `p` pulses per revolution, the sampling step computes
`rpm = (n / p) * 60` and resets the pulse counter to zero. -/
theorem rpm_sample_formula (p n t now : Nat) (rpm₀ : Rat)
    (_hp : 0 < p) (hdue : 1000 ≤ now - t) :
    (RpmSensor.update p now ⟨n, t, rpm₀⟩).currentRpm = (n : Rat) / (p : Rat) * 60
    ∧ (RpmSensor.update p now ⟨n, t, rpm₀⟩).pulseCount = 0 := by
  constructor <;> simp [RpmSensor.update, hdue]

/-- Witness for C6: 32 pulses with 16 pulses per revolution yield exactly
120 RPM. -/
theorem rpm_sample_formula_witness :
    (RpmSensor.update 16 1200 ⟨32, 200, 0⟩).currentRpm = 120
    ∧ (RpmSensor.update 16 1200 ⟨32, 200, 0⟩).pulseCount = 0 := by
  refine ⟨?_, (rpm_sample_formula 16 32 200 1200 0 (by decide) (by decide)).2⟩
  rw [(rpm_sample_formula 16 32 200 1200 0 (by decide) (by decide)).1]
  norm_num

/-- Counterexample for C2: the line `1_2_3` has two separator characters,
yet `processCommand` does not reject it — it updates the heartbeat and
dispatches motor speed 1 and the CIRCLE angle, changing the state. -/
theorem duplicate_separator_processed_cex :
    ((trim ("1_2_3".toList)).filter (fun c => c = '_')).length = 2
    ∧ processCommand ("1_2_3".toList) 50 ⟨[], 0, 0⟩ ⟨0, 0⟩ =
        (⟨[], 0, 50⟩, ⟨1, 150⟩)
    ∧ (⟨1, 150⟩ : ActState) ≠ ⟨0, 0⟩ := by
  decide

/-- Claim C2 (amended): only a line with zero separator characters is
rejected with all state unchanged; a line containing one or more separators
(including more than one) is processed: the heartbeat is refreshed and the
motor and servo are dispatched from the fields around the first separator. -/
theorem separator_rejection_amended (cmd : List Char) (now : Nat)
    (comm : CommState) (act : ActState) (i : Nat) :
    ((trim cmd).findIdx? (fun c => c = '_') = none →
        processCommand cmd now comm act = (comm, act))
    ∧ ((trim cmd).findIdx? (fun c => c = '_') = some i →
        processCommand cmd now comm act =
          ({ comm with lastHeartbeatTime := now },
           { motorPwm := Motor.setSpeed (toIntLoose ((trim cmd).take i)),
             servoAngle := ClassifierServo.setPosition (toIntLoose ((trim cmd).drop (i + 1))) })) :=
  ⟨processCommand_rejected cmd now comm act,
   processCommand_dispatched cmd now comm act i⟩

/-- Witness for C2 (amended): a separator-free line is dropped unchanged and
a two-separator line is dispatched. -/
theorem separator_rejection_amended_witness :
    processCommand ("abc".toList) 9 ⟨[], 2, 3⟩ ⟨5, 6⟩ = (⟨[], 2, 3⟩, ⟨5, 6⟩)
    ∧ processCommand ("4_2_3".toList) 50 ⟨[], 0, 0⟩ ⟨0, 0⟩ = (⟨[], 0, 50⟩, ⟨4, 150⟩) := by
  constructor
  · exact (separator_rejection_amended ("abc".toList) 9 ⟨[], 2, 3⟩ ⟨5, 6⟩ 0).1 (by decide)
  · rw [(separator_rejection_amended ("4_2_3".toList) 50 ⟨[], 0, 0⟩ ⟨0, 0⟩ 1).2 (by decide)]
    decide

/-- Counterexample for C3: the line `7_7_7` is malformed in the claim's
sense (duplicate separator), yet it does update the last-valid-command
timestamp. -/
theorem duplicate_separator_updates_heartbeat_cex :
    ((trim ("7_7_7".toList)).filter (fun c => c = '_')).length = 2
    ∧ (processCommand ("7_7_7".toList) 123 ⟨[], 0, 0⟩ ⟨0, 0⟩).1.lastHeartbeatTime = 123
    ∧ (123 : Nat) ≠ 0 := by
  decide

/-- Claim C3 (amended): the heartbeat timestamp is updated exactly when the
trimmed line contains at least one separator: every such line received at
time `t` sets the timestamp to `t` (even with duplicate separators), and a
line with no separator never updates it. -/
theorem heartbeat_update_iff_separator (cmd : List Char) (now : Nat)
    (comm : CommState) (act : ActState) :
    ('_' ∈ trim cmd →
        (processCommand cmd now comm act).1.lastHeartbeatTime = now)
    ∧ ('_' ∉ trim cmd →
        (processCommand cmd now comm act).1 = comm) := by
  constructor
  · intro hmem
    obtain ⟨i, hi⟩ := findIdx?_of_mem (trim cmd) hmem
    rw [processCommand_dispatched cmd now comm act i hi]
  · intro hmem
    have hnone : (trim cmd).findIdx? (fun c => c = '_') = none := by
      rw [List.findIdx?_eq_none_iff]
      intro x hx
      simp only [decide_eq_false_iff_not]
      intro hxeq
      exact hmem (hxeq ▸ hx)
    rw [processCommand_rejected cmd now comm act hnone]

/-- Witness for C3 (amended): a valid line stamps the heartbeat at its
arrival time; a separator-free line leaves the communication state alone. -/
theorem heartbeat_update_iff_separator_witness :
    (processCommand ("150_1".toList) 2500 ⟨[], 4, 7⟩ ⟨0, 0⟩).1.lastHeartbeatTime = 2500
    ∧ (processCommand ("garbage".toList) 2600 ⟨[], 4, 7⟩ ⟨0, 0⟩).1 = ⟨[], 4, 7⟩ :=
  ⟨(heartbeat_update_iff_separator ("150_1".toList) 2500 ⟨[], 4, 7⟩ ⟨0, 0⟩).1 (by decide),
   (heartbeat_update_iff_separator ("garbage".toList) 2600 ⟨[], 4, 7⟩ ⟨0, 0⟩).2 (by decide)⟩

/-- Claim C9: a line containing a separator whose fields have no leading
digits is not dropped: the heartbeat is reset, the motor speed becomes 0 and
the servo goes to the code-0 TRIANGLE position (both loose parses yield 0),
not to UNKNOWN. -/
theorem nondigit_fields_dispatch_zero (cmd : List Char) (now : Nat)
    (comm : CommState) (act : ActState) (i : Nat)
    (hsep : (trim cmd).findIdx? (fun c => c = '_') = some i)
    (hpwm : toIntLoose ((trim cmd).take i) = 0)
    (hsrv : toIntLoose ((trim cmd).drop (i + 1)) = 0) :
    processCommand cmd now comm act =
      ({ comm with lastHeartbeatTime := now },
       { motorPwm := 0, servoAngle := SERVO_POS_TRIANGLE }) := by
  rw [processCommand_dispatched cmd now comm act i hsep, hpwm, hsrv]
  rfl

/-- Witness for C9 on the line `abc_def`. -/
theorem nondigit_fields_dispatch_zero_witness :
    processCommand ("abc_def".toList) 77 ⟨[], 0, 0⟩ ⟨200, 150⟩ =
      (⟨[], 0, 77⟩, ⟨0, SERVO_POS_TRIANGLE⟩) := by
  rw [nondigit_fields_dispatch_zero ("abc_def".toList) 77 ⟨[], 0, 0⟩ ⟨200, 150⟩ 3
    (by decide) (by decide) (by decide)]

/-- Pulses arriving while the interrupt is detached leave the sensor state
untouched. -/
theorem pulseEvents_masked (k : Nat) (s : SensorState) (h : s.attached = false) :
    pulseEvents k s = s := by
  induction k generalizing s with
  | zero => rfl
  | succ k ih =>
    show pulseEvents k (pulseEvent s) = s
    have hp : pulseEvent s = s := by simp [pulseEvent, h]
    rw [hp]
    exact ih s h

/-- Claim C10: the read-and-reset of the pulse counter is serialized with
respect to the interrupt's increments: pulses arriving anywhere inside the
masked window (`k₁` after the detach, `k₂` after the RPM computation, `k₃`
after the reset) never interleave with it — the outcome is exactly that of
the untouched critical section, computing the RPM from the pre-window count
and leaving the counter at zero, so the only measurement error is the
pulses missed during the masked window; outside the window a pulse
increments the counter by exactly 1. -/
theorem pulse_read_reset_serialized (p k₁ k₂ k₃ : Nat) (s t : SensorState) :
    sampleCritical p k₁ k₂ k₃ s =
      { pulseCount := 0, attached := true,
        currentRpm := (s.pulseCount : Rat) / (p : Rat) * 60 }
    ∧ sampleCritical p k₁ k₂ k₃ s = sampleCritical p 0 0 0 s
    ∧ (t.attached = false → pulseEvent t = t)
    ∧ (t.attached = true → pulseEvent t = { t with pulseCount := t.pulseCount + 1 }) := by
  have key : ∀ k₁ k₂ k₃ : Nat, sampleCritical p k₁ k₂ k₃ s =
      { pulseCount := 0, attached := true,
        currentRpm := (s.pulseCount : Rat) / (p : Rat) * 60 } := by
    intro a b c
    simp only [sampleCritical, detachInterrupt, attachInterrupt]
    simp [pulseEvents_masked]
  refine ⟨key k₁ k₂ k₃, (key k₁ k₂ k₃).trans (key 0 0 0).symm, ?_, ?_⟩
  · intro h
    simp [pulseEvent, h]
  · intro h
    simp [pulseEvent, h]

/-- Witness for C10: 32 pre-window pulses with 16 pulses per revolution and
3 + 4 + 5 pulses inside the masked window still yield 120 RPM and a zeroed
counter; a masked pulse is dropped, an unmasked one counts. -/
theorem pulse_read_reset_serialized_witness :
    sampleCritical 16 3 4 5 ⟨32, true, 0⟩ = ⟨0, true, 120⟩
    ∧ sampleCritical 16 3 4 5 ⟨32, true, 0⟩ = sampleCritical 16 0 0 0 ⟨32, true, 0⟩
    ∧ pulseEvent ⟨7, false, 1⟩ = ⟨7, false, 1⟩
    ∧ pulseEvent ⟨7, true, 1⟩ = ⟨8, true, 1⟩ := by
  obtain ⟨h1, h2, _, _⟩ :=
    pulse_read_reset_serialized 16 3 4 5 ⟨32, true, 0⟩ ⟨7, false, 1⟩
  refine ⟨?_, h2, ?_, ?_⟩
  · rw [h1]; norm_num
  · exact (pulse_read_reset_serialized 16 3 4 5 ⟨32, true, 0⟩ ⟨7, false, 1⟩).2.2.1 rfl
  · exact (pulse_read_reset_serialized 16 3 4 5 ⟨32, true, 0⟩ ⟨7, true, 1⟩).2.2.2 rfl

/-- Counterexample for C7's exact-format conjunct: the record emitted by a
concrete `sendDataToPC` call goes on the wire as `5_1\r\n` — Arduino's
`Serial.println` terminates with a carriage return and a newline — which is
not the claimed bare-newline form `5_1\n`. -/
theorem telemetry_newline_terminator_cex :
    (sendDataToPC 5 1 150 ⟨[], 0, 0⟩).2 = some { rpmInt := 5, obstacle := 1 }
    ∧ telemetryLine { rpmInt := 5, obstacle := 1 } = "5_1\r\n".toList
    ∧ telemetryLine { rpmInt := 5, obstacle := 1 } ≠ "5_1\n".toList := by
  decide

/-- Claim C7 (amended): telemetry is rate-limited — consecutive emission
times are at least 100 ms apart, so any half-open 1-second window holds at
most 10 records — and each emitted record is the line
`<rpmAsInteger>_<obstacleState>\r\n` (`Serial.println` ends the line with a
carriage return and a newline, not a bare newline) built from the rpm and
obstacle values passed in at emission time, the obstacle value being 1
(present) or 0 (clear) when it comes from the presence sensor. -/
theorem telemetry_rate_limit_and_content (calls : List (Nat × Rat × Int))
    (comm : CommState) (lo : Nat)
    (hob : ∀ c ∈ calls, ∃ pin : Bool, c.2.2 = ObstacleSensor.getState pin) :
    List.Chain' gapR ((telemetryRun calls comm).map Prod.fst)
    ∧ (((telemetryRun calls comm).map Prod.fst).filter
        (fun t => decide (lo ≤ t ∧ t < lo + 1000))).length ≤ 10
    ∧ ∀ e ∈ telemetryRun calls comm, ∃ c ∈ calls,
        e.1 = c.1
        ∧ e.2 = { rpmInt := floatToInt c.2.1, obstacle := c.2.2 }
        ∧ (e.2.obstacle = 0 ∨ e.2.obstacle = 1)
        ∧ telemetryLine e.2 =
            (toString (floatToInt c.2.1)).toList ++ '_' :: (toString c.2.2).toList ++ ['\r', '\n'] := by
  have hchain : List.Chain' gapR ((telemetryRun calls comm).map Prod.fst) := by
    have h2 : List.Chain' gapR
        (comm.lastSerialSendTime :: (telemetryRun calls comm).map Prod.fst) :=
      telemetryRun_chain calls comm
    simpa using h2.tail
  refine ⟨hchain, ?_, ?_⟩
  · refine window_count _ (hchain.sublist (List.filter_sublist _)) lo ?_
    intro t ht
    have := List.of_mem_filter ht
    simp only [decide_eq_true_eq] at this
    omega
  · intro e he
    obtain ⟨c, hc, h1, h2⟩ := telemetryRun_content calls comm e he
    refine ⟨c, hc, h1, h2, ?_, ?_⟩
    · obtain ⟨pin, hpin⟩ := hob c hc
      rw [h2]
      cases pin with
      | false => left; rw [hpin]; rfl
      | true => right; rw [hpin]; rfl
    · rw [h2]
      simp [telemetryLine]

/-- Witness for C7 on a concrete call sequence: calls at 150, 200 and
260 ms emit at 150 and 260 only, and every record matches its call. -/
theorem telemetry_rate_limit_and_content_witness :
    List.Chain' gapR ((telemetryRun [(150, 5, 1), (200, 3, 0), (260, 7, 1)] ⟨[], 0, 0⟩).map Prod.fst)
    ∧ (((telemetryRun [(150, 5, 1), (200, 3, 0), (260, 7, 1)] ⟨[], 0, 0⟩).map Prod.fst).filter
        (fun t => decide (0 ≤ t ∧ t < 0 + 1000))).length ≤ 10
    ∧ ∀ e ∈ telemetryRun [(150, 5, 1), (200, 3, 0), (260, 7, 1)] ⟨[], 0, 0⟩,
        ∃ c ∈ [(150, 5, 1), (200, 3, 0), (260, 7, 1)],
          e.1 = c.1
          ∧ e.2 = { rpmInt := floatToInt c.2.1, obstacle := c.2.2 }
          ∧ (e.2.obstacle = 0 ∨ e.2.obstacle = 1)
          ∧ telemetryLine e.2 =
              (toString (floatToInt c.2.1)).toList ++ '_' :: (toString c.2.2).toList ++ ['\r', '\n'] := by
  refine telemetry_rate_limit_and_content [(150, 5, 1), (200, 3, 0), (260, 7, 1)] ⟨[], 0, 0⟩ 0 ?_
  intro c hc
  simp only [List.mem_cons, List.not_mem_nil, or_false] at hc
  rcases hc with h | h | h
  · exact ⟨true, by rw [h]; rfl⟩
  · exact ⟨false, by rw [h]; rfl⟩
  · exact ⟨true, by rw [h]; rfl⟩

/-- Claim C8: within a control cycle, the inbound line is drained and its
valid command dispatched to the actuators before that cycle's watchdog
check runs, so the fresh command always takes effect (the watchdog, seeing
the just-refreshed heartbeat, never overrides it in that cycle); and any
telemetry emitted in the cycle carries exactly the RPM value computed by
this cycle's sampling step and this cycle's obstacle reading, never stale
pre-update values. -/
theorem cycle_command_before_watchdog (p : Nat) (pinIsLow : Bool) (now : Nat)
    (st : SysState) (buf : List Char) (i : Nat)
    (hnl : '\n' ∉ buf)
    (hsep : (trim (st.comm.inputString ++ buf)).findIdx? (fun c => c = '_') = some i) :
    ((ControlLoop.cycle p (buf ++ ['\n']) pinIsLow now st).1.act.motorPwm =
        Motor.setSpeed (toIntLoose ((trim (st.comm.inputString ++ buf)).take i)))
    ∧ ((ControlLoop.cycle p (buf ++ ['\n']) pinIsLow now st).1.act.servoAngle =
        ClassifierServo.setPosition (toIntLoose ((trim (st.comm.inputString ++ buf)).drop (i + 1))))
    ∧ ((ControlLoop.cycle p (buf ++ ['\n']) pinIsLow now st).1.comm.lastHeartbeatTime = now)
    ∧ (∀ r, (ControlLoop.cycle p (buf ++ ['\n']) pinIsLow now st).2 = some r →
        r = { rpmInt := floatToInt (RpmSensor.update p now st.sensor).currentRpm,
              obstacle := ObstacleSensor.getState pinIsLow }) := by
  have hnotimeout : ¬ (HEARTBEAT_TIMEOUT_MS < now - now) := by
    have : HEARTBEAT_TIMEOUT_MS = 2000 := rfl
    omega
  simp only [ControlLoop.cycle, Communication.update]
  rw [handleSerial_single_line buf now st.comm st.act hnl]
  rw [processCommand_dispatched _ _ _ _ _ hsep]
  by_cases hsend : SERIAL_SEND_INTERVAL_MS ≤
      now - ({ { st.comm with lastHeartbeatTime := now } with
                inputString := ([] : List Char) }).lastSerialSendTime
  · simp only [sendDataToPC, hsend, if_true, checkHeartbeat, hnotimeout, if_false]
    refine ⟨trivial, trivial, trivial, ?_⟩
    intro r hr
    exact (Option.some.inj hr).symm
  · simp only [sendDataToPC, hsend, if_false, checkHeartbeat, hnotimeout]
    refine ⟨trivial, trivial, trivial, ?_⟩
    intro r hr
    simp at hr

/-- Witness for C8: with a stale heartbeat (last valid command at time 0,
cycle at 5000 ms — past the 2000 ms timeout), the arriving line `200_1`
still takes effect (speed 200, SQUARE angle) instead of the safe state, and
the emitted record carries this cycle's RPM sample and obstacle reading. -/
theorem cycle_command_before_watchdog_witness :
    ((ControlLoop.cycle 480 ("200_1".toList ++ ['\n']) true 5000
        ⟨⟨0, 0, 0⟩, ⟨[], 0, 0⟩, ⟨7, 150⟩⟩).1.act.motorPwm = 200)
    ∧ ((ControlLoop.cycle 480 ("200_1".toList ++ ['\n']) true 5000
        ⟨⟨0, 0, 0⟩, ⟨[], 0, 0⟩, ⟨7, 150⟩⟩).1.act.servoAngle = 90)
    ∧ ((ControlLoop.cycle 480 ("200_1".toList ++ ['\n']) true 5000
        ⟨⟨0, 0, 0⟩, ⟨[], 0, 0⟩, ⟨7, 150⟩⟩).1.comm.lastHeartbeatTime = 5000)
    ∧ (∀ r, (ControlLoop.cycle 480 ("200_1".toList ++ ['\n']) true 5000
        ⟨⟨0, 0, 0⟩, ⟨[], 0, 0⟩, ⟨7, 150⟩⟩).2 = some r →
        r = { rpmInt := 0, obstacle := 1 }) := by
  obtain ⟨h1, h2, h3, h4⟩ := cycle_command_before_watchdog 480 true 5000
    ⟨⟨0, 0, 0⟩, ⟨[], 0, 0⟩, ⟨7, 150⟩⟩ ("200_1".toList) 3 (by decide) (by decide)
  refine ⟨by rw [h1]; decide, by rw [h2]; decide, h3, ?_⟩
  intro r hr
  rw [h4 r hr]
  simp [RpmSensor.update, floatToInt, ObstacleSensor.getState]

end BandaCV
